import Mathlib

/-!
# be-03-weather-cli : a shallow embedding of `index.js`

The script reads a city, a day count and a temperature scale from the command
line, builds one request URL, and prints either today's weather or a forecast.

Conventions of the embedding:

* a JavaScript string is a Lean `String`; character classes are decided on the
  code point;
* `process.argv`, `process.env.API_KEY` and the module-level `city`, `days`,
  `scale`, `useF` are passed explicitly;
* a call of `console.log` is recorded in a trace, one entry per call, with the
  list of its arguments; a call of a `colors` function is recorded as a styled
  node holding the arguments it was given;
* a thrown exception is the `Except.error` branch; `process.exit` ends the
  trace with an exit status.
-/

namespace WeatherCli

/-! ## JavaScript values and the built-ins the script calls -/

/-- The JavaScript values that the argument handling of the script can hold:
`undefined` (a missing array slot), an integer-valued number, or a string. -/
inductive JSVal where
  | undefined
  | num (n : Int)
  | str (s : String)
  deriving DecidableEq, Repr

/-- The exceptions a built-in can throw. -/
inductive JSError where
  | typeError (what : String)
  deriving DecidableEq, Repr

/-- Decimal digit for a value below ten. -/
def digitChar (d : Nat) : Char :=
  match d with
  | 0 => '0' | 1 => '1' | 2 => '2' | 3 => '3' | 4 => '4'
  | 5 => '5' | 6 => '6' | 7 => '7' | 8 => '8' | _ => '9'

/-- Decimal digits of a natural number, most significant first, produced from
the least significant end with `fuel` bounding the number of digits. -/
def natDigits : Nat → Nat → List Char → List Char
  | 0, _, acc => acc
  | fuel + 1, n, acc =>
    if n < 10 then digitChar n :: acc
    else natDigits fuel (n / 10) (digitChar (n % 10) :: acc)

/-- `Number::toString` on an integer-valued number: an optional minus sign and
the decimal digits. (The runtime switches to exponent form from 10^21 on; the
numbers of this script are 1 to 5.) -/
def numberToString (n : Int) : String :=
  match n with
  | Int.ofNat k => String.mk (natDigits (k + 1) k [])
  | Int.negSucc k => String.mk ('-' :: natDigits (k + 2) (k + 1) [])

/-- `ToString`, as applied by a template literal and by `parseInt`. -/
def JSVal.toStr : JSVal → String
  | .undefined => "undefined"
  | .num n => numberToString n
  | .str s => s

/-- White space and line terminators, the characters `trim` and the numeric
conversions skip: TAB, LF, VT, FF, CR, SP, NBSP, U+1680, U+2000 to U+200A,
U+2028, U+2029, U+202F, U+205F, U+3000 and U+FEFF. -/
def isStrWhiteSpaceChar (c : Char) : Bool :=
  let n := c.toNat
  (9 ≤ n && n ≤ 13) || n = 32 || n = 160 || n = 5760 || (8192 ≤ n && n ≤ 8202) ||
    n = 8232 || n = 8233 || n = 8239 || n = 8287 || n = 12288 || n = 65279

/-- Decimal digit `0` to `9`. -/
def isDecimalDigit (c : Char) : Bool :=
  48 ≤ c.toNat && c.toNat ≤ 57

/-- Binary digit. -/
def isBinaryDigit (c : Char) : Bool :=
  c.toNat = 48 || c.toNat = 49

/-- Octal digit. -/
def isOctalDigit (c : Char) : Bool :=
  48 ≤ c.toNat && c.toNat ≤ 55

/-- Hexadecimal digit, either case. -/
def isHexDigit (c : Char) : Bool :=
  isDecimalDigit c || (97 ≤ c.toNat && c.toNat ≤ 102) || (65 ≤ c.toNat && c.toNat ≤ 70)

/-- Removal of leading white space. -/
def trimStart (s : List Char) : List Char :=
  s.dropWhile isStrWhiteSpaceChar

/-- Removal of leading and trailing white space. -/
def trimString (s : List Char) : List Char :=
  (((trimStart s).reverse).dropWhile isStrWhiteSpaceChar).reverse

/-- Removal of one leading `+` or `-`, if there is one. -/
def dropSign (s : List Char) : List Char :=
  match s with
  | [] => []
  | c :: r => if c = '+' ∨ c = '-' then r else c :: r

/-- Grammar `SignedInteger`: an optional sign and one or more decimal digits. -/
def isSignedInteger (s : List Char) : Bool :=
  !(dropSign s).isEmpty && (dropSign s).all isDecimalDigit

/-- Grammar `ExponentPart`, optional: nothing, or `e`/`E` and a signed integer. -/
def isExponentPartOpt (s : List Char) : Bool :=
  match s with
  | [] => true
  | c :: r => (c = 'e' ∨ c = 'E') && isSignedInteger r

/-- Grammar `StrUnsignedDecimalLiteral`: `Infinity`, or digits with an optional
fraction and an optional exponent, at least one digit before the exponent. -/
def isStrUnsignedDecimalLiteral (s : List Char) : Bool :=
  s = "Infinity".toList ||
    (let intPart := s.takeWhile isDecimalDigit
     match s.dropWhile isDecimalDigit with
     | [] => !intPart.isEmpty
     | c :: r =>
       if c = '.' then
         (!intPart.isEmpty || !(r.takeWhile isDecimalDigit).isEmpty) &&
           isExponentPartOpt (r.dropWhile isDecimalDigit)
       else !intPart.isEmpty && isExponentPartOpt (c :: r))

/-- Grammar `StrDecimalLiteral`: an optionally signed unsigned decimal literal. -/
def isStrDecimalLiteral (s : List Char) : Bool :=
  isStrUnsignedDecimalLiteral (dropSign s)

/-- Grammar `NonDecimalIntegerLiteral`: `0b`, `0o` or `0x` (either case) and
one or more digits of that base; no sign. -/
def isNonDecimalIntegerLiteral (s : List Char) : Bool :=
  match s with
  | z :: p :: r =>
    z = '0' && !r.isEmpty &&
      (((p = 'b' ∨ p = 'B') && r.all isBinaryDigit) ||
        ((p = 'o' ∨ p = 'O') && r.all isOctalDigit) ||
        ((p = 'x' ∨ p = 'X') && r.all isHexDigit))
  | _ => false

/-- Grammar `StringNumericLiteral`: white space around nothing or around a
numeric literal. `Number(s)` is NaN exactly when `s` does not match. -/
def isStringNumericLiteral (s : List Char) : Bool :=
  let t := trimString s
  t.isEmpty || isStrDecimalLiteral t || isNonDecimalIntegerLiteral t

/-- The global `isNaN`: the argument is converted with `Number` and tested.
`undefined` converts to NaN, a number held here is never NaN, and a string
converts to NaN exactly when it is not a string numeric literal. -/
def isNaN (v : JSVal) : Bool :=
  match v with
  | .undefined => true
  | .num _ => false
  | .str s => !isStringNumericLiteral s.toList

/-- Value of a digit character in a radix up to 36, if it is one. -/
def digitValue (c : Char) : Option Nat :=
  let n := c.toNat
  if 48 ≤ n ∧ n ≤ 57 then some (n - 48)
  else if 97 ≤ n ∧ n ≤ 122 then some (n - 87)
  else if 65 ≤ n ∧ n ≤ 90 then some (n - 55)
  else none

/-- Whether a character is a digit of the given radix. -/
def isRadixDigit (radix : Nat) (c : Char) : Bool :=
  match digitValue c with
  | some d => decide (d < radix)
  | none => false

/-- Value of a digit sequence in the given radix. -/
def radixValue (radix : Nat) (ds : List Char) : Nat :=
  ds.foldl (fun acc c => acc * radix + (digitValue c).getD 0) 0

/-- The global `parseInt(string, radix)`, following the steps of the language
specification; `none` is NaN. The result is kept as the exact integer: the
runtime rounds it to a double, which is monotone and leaves the integers
around 1 and 5 fixed, so the clamp applied to it is the same. -/
def parseInt (string : JSVal) (radix : Nat) : Option Int :=
  let s := trimStart string.toStr.toList
  let sign : Int := match s with
    | c :: _ => if c = '-' then -1 else 1
    | [] => 1
  let s := dropSign s
  if radix ≠ 0 ∧ (radix < 2 ∨ 36 < radix) then none
  else
    let stripPrefix := decide (radix = 0 ∨ radix = 16)
    let r := if radix = 0 then 10 else radix
    let hasPrefix := match s with
      | z :: x :: _ => stripPrefix && z = '0' && (x = 'x' ∨ x = 'X')
      | _ => false
    let s := if hasPrefix then s.drop 2 else s
    let r := if hasPrefix then 16 else r
    let z := s.takeWhile (isRadixDigit r)
    if z.isEmpty then none
    else some (sign * (radixValue r z : Int))

/-- The operator `||` on a number and the constant 1: NaN and zero are falsy. -/
def orOne (x : Option Int) : Int :=
  match x with
  | none => 1
  | some n => if n = 0 then 1 else n

/-! ## Argument handling (lines 15 to 26) -/

/-- The library functions whose result depends on Unicode tables or on the
shape of a payload number; the script reaches them through method calls and
string concatenation. `ν` is the type of a payload number. -/
structure Lib (ν : Type) where
  /-- The method `String.prototype.toUpperCase`. -/
  toUpperCase : String → String
  /-- The method `String.prototype.toLowerCase`. -/
  toLowerCase : String → String
  /-- Conversion of a payload number to a string under `+`. -/
  numToStr : ν → String

/-- The method call `v.toUpperCase()`: defined on strings, a `TypeError` on a
number or on `undefined`. -/
def callToUpperCase {ν : Type} (lib : Lib ν) (v : JSVal) : Except JSError String :=
  match v with
  | .str s => .ok (lib.toUpperCase s)
  | .num _ => .error (.typeError "scale.toUpperCase is not a function")
  | .undefined => .error (.typeError "Cannot read properties of undefined")

/-- The normalised query: the module-level `city`, `days` and `useF`. -/
structure Query where
  city : JSVal
  days : Int
  useF : Bool
  deriving DecidableEq, Repr

/-- Line 16, `let [, , city, days = 1, scale = "C"] = process.argv`: the third
to fifth entries, a default replacing a missing one. -/
def destructure (argv : List String) : JSVal × JSVal × JSVal :=
  let city := match argv.get? 2 with
    | some s => JSVal.str s
    | none => JSVal.undefined
  let days := match argv.get? 3 with
    | some s => JSVal.str s
    | none => JSVal.num 1
  let scale := match argv.get? 4 with
    | some s => JSVal.str s
    | none => JSVal.str "C"
  (city, days, scale)

/-- Lines 19 to 21: `days` and `scale` change places when `scale` is numeric. -/
def swap (days scale : JSVal) : JSVal × JSVal :=
  if !isNaN scale then (scale, days) else (days, scale)

/-- Line 25: `Math.max(1, Math.min(parseInt(days, 10) || 1, 5))`. -/
def clampDays (days : JSVal) : Int :=
  max 1 (min (orOne (parseInt days 10)) 5)

/-- Lines 19 to 26 on the destructured values. -/
def normalizeValues {ν : Type} (lib : Lib ν) (city days scale : JSVal) :
    Except JSError Query :=
  let (days, scale) := swap days scale
  let days := clampDays days
  match callToUpperCase lib scale with
  | .ok up => .ok { city := city, days := days, useF := decide (up = "F") }
  | .error e => .error e

/-- Lines 16 to 26: from `process.argv` to the query. -/
def normalize {ν : Type} (lib : Lib ν) (argv : List String) : Except JSError Query :=
  let (city, days, scale) := destructure argv
  normalizeValues lib city days scale

/-- A library instance for payload numbers that are integers, exact on strings
of ASCII characters: the case methods map the letters `a` to `z` and `A` to `Z`
and leave every other character as it is. -/
def asciiLib : Lib Int where
  toUpperCase s := String.mk (s.toList.map fun c =>
    if 97 ≤ c.toNat ∧ c.toNat ≤ 122 then Char.ofNat (c.toNat - 32) else c)
  toLowerCase s := String.mk (s.toList.map fun c =>
    if 65 ≤ c.toNat ∧ c.toNat ≤ 90 then Char.ofNat (c.toNat + 32) else c)
  numToStr := numberToString

/-! ## Request URL (lines 30 to 32) -/

/-- Lines 30 to 32: the endpoint and the day-count parameter chosen from
`days`, spliced into the request URL with the key and the city. -/
def url (API_KEY city : JSVal) (days : Int) : String :=
  let (range, forecast) :=
    if days = 1 then ("current", "") else ("forecast", "&days=" ++ numberToString days)
  "http://api.weatherapi.com/v1/" ++ range ++ ".json?key=" ++ API_KEY.toStr ++ "&q=" ++
    city.toStr ++ forecast

/-- The constant part of the URL for today's weather, up to the key. -/
def currentPrefix : List Char := "http://api.weatherapi.com/v1/current.json?key=".toList

/-! ## Console trace -/

/-- The `response` member of a rejected request. -/
structure ErrorResponse where
  status : Int
  statusText : String
  deriving DecidableEq, Repr

/-- The value handed to `showError`: a message, and the response of the
provider when the failure is an answer of the provider. -/
structure ErrorContext where
  message : String
  response : Option ErrorResponse
  deriving DecidableEq, Repr

/-- The `colors` functions the script calls. -/
inductive Style where
  | whiteInverse | blue | green | yellow | red | rainbow
  deriving DecidableEq, Repr

/-- An argument of `console.log` or of a `colors` function: a string, the
result of a `colors` call on some arguments, or an error object. -/
inductive Text where
  | str (s : String)
  | styled (style : Style) (args : List Text)
  | object (e : ErrorContext)

/-- One call of `console.log`: its arguments. -/
abbrev Line := List Text

/-- The call `red(...)`. -/
def red (args : List Text) : Text := .styled .red args

/-- The call `yellow(...)`. -/
def yellow (args : List Text) : Text := .styled .yellow args

/-- The call `green(...)`. -/
def green (args : List Text) : Text := .styled .green args

/-- The call `blue(...)`. -/
def blue (args : List Text) : Text := .styled .blue args

/-- The call `rainbow(...)`. -/
def rainbow (args : List Text) : Text := .styled .rainbow args

/-- The call `white.inverse(...)`. -/
def whiteInverse (args : List Text) : Text := .styled .whiteInverse args

/-! ## Error reporter (lines 42 to 64) -/

/-- The function `showError`. -/
def showError (error : ErrorContext) : List Line :=
  match error.response with
  | some response =>
    [red [.str (error.message ++ ": " ++ response.statusText)]] ::
      (if response.status = 400 then
        [[yellow [.str "City names must be at least 3 characters long."]]]
      else if response.status = 401 then
        [[red [.str "Check your API_KEY in the .env file"]],
         [.str "or apply for at API_KEY at https://weatherapi.com and add it to your .env file.\n"]]
      else [])
  | none => [[.str "Error:", .object error]]

/-! ## Payload -/

/-- The member `condition` of the payload. -/
structure Condition where
  text : String
  deriving DecidableEq, Repr

/-- The member `location`. -/
structure Location where
  name : String
  country : String
  deriving DecidableEq, Repr

/-- The member `current`. -/
structure Current (ν : Type) where
  temp_c : ν
  temp_f : ν
  condition : Condition

/-- The member `day` of a forecast record. -/
structure Day (ν : Type) where
  avgtemp_c : ν
  avgtemp_f : ν
  condition : Condition

/-- The member `astro` of a forecast record. -/
structure Astro where
  sunrise : String
  sunset : String
  deriving DecidableEq, Repr

/-- One element of `forecastday`. -/
structure ForecastDay (ν : Type) where
  date : String
  day : Day ν
  astro : Astro

/-- The member `forecast`. -/
structure Forecast (ν : Type) where
  forecastday : List (ForecastDay ν)

/-- The member `data` of a response. -/
structure WeatherData (ν : Type) where
  location : Location
  current : Current ν
  forecast : Option (Forecast ν)

/-- The value a fulfilled request hands to `displayWeather`. -/
structure Response (ν : Type) where
  data : WeatherData ν

/-! ## Presenter (lines 69 to 160) -/

/-- How a call ends. -/
inductive Outcome where
  | returned
  | exited (code : Nat)
  | threw (e : JSError)
  deriving DecidableEq, Repr

/-- What a call leaves behind: the console trace and how it ended. -/
structure Run where
  out : List Line
  outcome : Outcome

/-- The method call `v.toLowerCase()`. -/
def callToLowerCase {ν : Type} (lib : Lib ν) (v : JSVal) : Except JSError String :=
  match v with
  | .str s => .ok (lib.toLowerCase s)
  | .num _ => .error (.typeError "city.toLowerCase is not a function")
  | .undefined => .error (.typeError "Cannot read properties of undefined")

/-- The function `showHeader`. -/
def showHeader : List Line :=
  [[whiteInverse [.str "\n ********************* \n * "],
    .str "WEATHER PROGRAM",
    whiteInverse [.str " * \n ********************* "]]]

/-- Line 85, `const temp` of `displayWeather`. -/
def currentTemp {ν : Type} (lib : Lib ν) (useF : Bool) (current : Current ν) : String :=
  if useF then lib.numToStr current.temp_f ++ "°F" else lib.numToStr current.temp_c ++ "°C"

/-- Line 134, `const temp` of `showForecastForADay`. -/
def averageTemp {ν : Type} (lib : Lib ν) (useF : Bool) (day : Day ν) : String :=
  if useF then lib.numToStr day.avgtemp_f ++ "°F" else lib.numToStr day.avgtemp_c ++ "°C"

/-- The function `showForecastForADay`. -/
def showForecastForADay {ν : Type} (lib : Lib ν) (useF : Bool) (fd : ForecastDay ν) :
    List Line :=
  let temp := averageTemp lib useF fd.day
  [[.str "Day:", red [.str fd.date]],
   [.str "Average Temperature:", yellow [.str temp]],
   [.str "Weather Conditions:", yellow [.str fd.day.condition.text]],
   [.str "Sunrise:", yellow [.str fd.astro.sunrise], .str "\n",
    .str "Sunset:", yellow [.str fd.astro.sunset], .str "\n"]]

/-- The array literal `[, , "TWO", "THREE", "FOUR", "FIVE"]` of line 113. -/
def countWords : List JSVal :=
  [.undefined, .undefined, .str "TWO", .str "THREE", .str "FOUR", .str "FIVE"]

/-- Indexing of an array: `undefined` past the end. -/
def index (xs : List JSVal) (i : Nat) : JSVal :=
  match xs.get? i with
  | some v => v
  | none => .undefined

/-- The function `showForecast`. -/
def showForecast {ν : Type} (lib : Lib ν) (useF : Bool) (name country temp : String)
    (forecast : Forecast ν) : List Line :=
  let forecastday := forecast.forecastday
  let count := index countWords forecastday.length
  [[.str "\nIn", green [.str name], .str "the current temperature is:", yellow [.str temp]],
   [blue [.str "\n* THE WEATHER FORECAST FOR",
          green [.str (lib.toUpperCase name ++ ", " ++ lib.toUpperCase country)],
          .str ("FOR THE NEXT " ++ count.toStr ++ " DAYS *\n")]]] ++
    forecastday.flatMap (showForecastForADay lib useF)

/-- The function `showTodaysWeather`. -/
def showTodaysWeather (name country temp conditions : String) : List Line :=
  [[.str "\nIt is now", green [.str temp], .str "in", yellow [.str (name ++ ", " ++ country)]],
   [.str "The current weather conditions are :", rainbow [.str ("\"" ++ conditions ++ "\"\n")]]]

/-- The console call of lines 75 to 78. -/
def mismatchLine (city name : String) : Line :=
  [red [.str "Error: "],
   .str ("No weather data for \"" ++ city ++ "\" found. Perhaps you meant " ++ name ++
     "? Please check your spelling.")]

/-- The function `displayWeather`, with the module-level `city` and `useF`. -/
def displayWeather {ν : Type} (lib : Lib ν) (city : JSVal) (useF : Bool)
    (response : Response ν) : Run :=
  let location := response.data.location
  let current := response.data.current
  let forecast := response.data.forecast
  let name := location.name
  let country := location.country
  match callToLowerCase lib city with
  | .error e => { out := [], outcome := .threw e }
  | .ok lowered =>
    if lowered ≠ lib.toLowerCase name then
      { out := [mismatchLine city.toStr name], outcome := .exited 9 }
    else
      let temp := currentTemp lib useF current
      let report := match forecast with
        | some forecast => showForecast lib useF name country temp forecast
        | none => showTodaysWeather name country temp current.condition.text
      { out := showHeader ++ report, outcome := .returned }

/-! ## Lemmas on the built-ins -/

theorem not_whiteSpace_of_digit {c : Char} (h : isDecimalDigit c = true) :
    isStrWhiteSpaceChar c = false := by
  simp only [isDecimalDigit, Bool.and_eq_true, decide_eq_true_eq] at h
  simp only [isStrWhiteSpaceChar, Bool.or_eq_false_iff, Bool.and_eq_false_iff,
    decide_eq_false_iff_not]
  omega

theorem not_whiteSpace_plus : isStrWhiteSpaceChar '+' = false := by decide

theorem not_whiteSpace_minus : isStrWhiteSpaceChar '-' = false := by decide

theorem not_sign_of_digit {c : Char} (h : isDecimalDigit c = true) : ¬ (c = '+' ∨ c = '-') := by
  rintro (rfl | rfl) <;> revert h <;> decide

/-- A string that neither starts nor ends with white space is left as it is. -/
theorem trimString_eq_self (l : List Char)
    (hfirst : ∀ c r, l = c :: r → isStrWhiteSpaceChar c = false)
    (hlast : ∀ hl : l ≠ [], isStrWhiteSpaceChar (l.getLast hl) = false) :
    trimString l = l := by
  have h1 : trimStart l = l := by
    cases l with
    | nil => rfl
    | cons c r => simp [trimStart, List.dropWhile, hfirst c r rfl]
  unfold trimString
  rw [h1]
  have := (List.rdropWhile_eq_self_iff (p := isStrWhiteSpaceChar) (l := l)).2
    (fun hl => by simp [hlast hl])
  simpa [List.rdropWhile] using this

/-- A non-empty run of decimal digits is an unsigned decimal literal. -/
theorem isStrUnsignedDecimalLiteral_of_digits (l : List Char) (hne : l ≠ [])
    (hall : ∀ c ∈ l, isDecimalDigit c = true) : isStrUnsignedDecimalLiteral l = true := by
  have ht : l.takeWhile isDecimalDigit = l := List.takeWhile_eq_self_iff.2 hall
  have hd : l.dropWhile isDecimalDigit = [] := List.dropWhile_eq_nil_iff.2 hall
  unfold isStrUnsignedDecimalLiteral
  simp only [ht, hd, Bool.or_eq_true]
  right
  cases l with
  | nil => exact absurd rfl hne
  | cons c r => rfl

/-- An optionally signed run of decimal digits is a string numeric literal. -/
theorem isStringNumericLiteral_of_isSignedInteger (l : List Char)
    (h : isSignedInteger l = true) : isStringNumericLiteral l = true := by
  simp only [isSignedInteger, Bool.and_eq_true, Bool.not_eq_true', List.all_eq_true,
    List.isEmpty_eq_false] at h
  obtain ⟨hne, hall⟩ := h
  have hlit : isStrDecimalLiteral l = true :=
    isStrUnsignedDecimalLiteral_of_digits _ hne hall
  have htrim : trimString l = l := by
    apply trimString_eq_self
    · intro c r hl
      subst hl
      by_cases hs : c = '+' ∨ c = '-'
      · rcases hs with rfl | rfl
        · exact not_whiteSpace_plus
        · exact not_whiteSpace_minus
      · simp only [dropSign, hs, if_false] at hall
        exact not_whiteSpace_of_digit (hall c (List.mem_cons_self _ _))
    · intro hl
      cases l with
      | nil => exact absurd rfl hl
      | cons c r =>
        by_cases hs : c = '+' ∨ c = '-'
        · simp only [dropSign, hs, if_true] at hall hne
          rw [List.getLast_cons hne]
          exact not_whiteSpace_of_digit (hall _ (List.getLast_mem hne))
        · simp only [dropSign, hs, if_false] at hall
          exact not_whiteSpace_of_digit (hall _ (List.getLast_mem _))
  unfold isStringNumericLiteral
  simp only [htrim, hlit, Bool.or_true, Bool.true_or]

/-- An optionally signed run of decimal digits is numeric for `isNaN`. -/
theorem isNaN_of_isSignedInteger (d : String) (h : isSignedInteger d.toList = true) :
    isNaN (.str d) = false := by
  unfold isNaN
  simp only [isStringNumericLiteral_of_isSignedInteger _ h, Bool.not_true]

/-- Line 25 written out by cases on what `parseInt` finds. -/
theorem clampDays_eq (v : JSVal) :
    clampDays v =
      match parseInt v 10 with
      | none => 1
      | some n => if n < 1 then 1 else if 5 < n then 5 else n := by
  unfold clampDays orOne
  cases parseInt v 10 with
  | none => simp
  | some n =>
    simp only
    split_ifs <;> omega

theorem clampDays_bounds (v : JSVal) : 1 ≤ clampDays v ∧ clampDays v ≤ 5 := by
  unfold clampDays
  omega

theorem isNaN_C : isNaN (.str "C") = true := by decide

/-- The query computed from a command line with a first optional token: the
test of line 19 looks at the second optional token, `"C"` when there is none. -/
theorem normalize_cons {ν : Type} (lib : Lib ν) (a0 a1 city t1 : String) (rest : List String) :
    normalize lib (a0 :: a1 :: city :: t1 :: rest) =
      .ok (match rest.head? with
        | some t2 =>
          if isNaN (.str t2) then
            { city := .str city, days := clampDays (.str t1),
              useF := decide (lib.toUpperCase t2 = "F") }
          else
            { city := .str city, days := clampDays (.str t2),
              useF := decide (lib.toUpperCase t1 = "F") }
        | none =>
          { city := .str city, days := clampDays (.str t1),
            useF := decide (lib.toUpperCase "C" = "F") }) := by
  cases rest with
  | nil =>
    simp [normalize, destructure, normalizeValues, swap, isNaN_C, callToUpperCase]
  | cons t2 more =>
    by_cases h : isNaN (.str t2) = true
    · simp [normalize, destructure, normalizeValues, swap, h, callToUpperCase]
    · simp only [Bool.not_eq_true] at h
      simp [normalize, destructure, normalizeValues, swap, h, callToUpperCase]

/-- The query computed from a command line without optional tokens. -/
theorem normalize_short {ν : Type} (lib : Lib ν) (argv : List String) (h : argv.length ≤ 3) :
    normalize lib argv =
      .ok { city := (destructure argv).1, days := 1,
            useF := decide (lib.toUpperCase "C" = "F") } := by
  have h1 : clampDays (.num 1) = 1 := by decide
  rcases argv with _ | ⟨a0, _ | ⟨a1, _ | ⟨c, _ | ⟨d, r⟩⟩⟩⟩
  · simp [normalize, destructure, normalizeValues, swap, isNaN_C, callToUpperCase, h1]
  · simp [normalize, destructure, normalizeValues, swap, isNaN_C, callToUpperCase, h1]
  · simp [normalize, destructure, normalizeValues, swap, isNaN_C, callToUpperCase, h1]
  · simp [normalize, destructure, normalizeValues, swap, isNaN_C, callToUpperCase, h1]
  · simp at h

/-- The normaliser on any command line: after the swap `scale` holds a string,
and the query is built from the swapped values. -/
theorem normalize_ok {ν : Type} (lib : Lib ν) (argv : List String) :
    ∃ s, (swap (destructure argv).2.1 (destructure argv).2.2).2 = .str s ∧
      normalize lib argv =
        .ok { city := (destructure argv).1,
              days := clampDays (swap (destructure argv).2.1 (destructure argv).2.2).1,
              useF := decide (lib.toUpperCase s = "F") } := by
  rcases argv with _ | ⟨a0, _ | ⟨a1, _ | ⟨c, _ | ⟨d, _ | ⟨t, r⟩⟩⟩⟩⟩
  · exact ⟨"C", by simp [destructure, swap, isNaN_C],
      by simp [normalize, destructure, normalizeValues, swap, isNaN_C, callToUpperCase]⟩
  · exact ⟨"C", by simp [destructure, swap, isNaN_C],
      by simp [normalize, destructure, normalizeValues, swap, isNaN_C, callToUpperCase]⟩
  · exact ⟨"C", by simp [destructure, swap, isNaN_C],
      by simp [normalize, destructure, normalizeValues, swap, isNaN_C, callToUpperCase]⟩
  · exact ⟨"C", by simp [destructure, swap, isNaN_C],
      by simp [normalize, destructure, normalizeValues, swap, isNaN_C, callToUpperCase]⟩
  · exact ⟨"C", by simp [destructure, swap, isNaN_C],
      by simp [normalize, destructure, normalizeValues, swap, isNaN_C, callToUpperCase]⟩
  · by_cases h : isNaN (.str t) = true
    · exact ⟨t, by simp [destructure, swap, h],
        by simp [normalize, destructure, normalizeValues, swap, h, callToUpperCase]⟩
    · simp only [Bool.not_eq_true] at h
      exact ⟨d, by simp [destructure, swap, h],
        by simp [normalize, destructure, normalizeValues, swap, h, callToUpperCase]⟩

/-- The exception of line 26 is reachable in the embedding: a numeric `scale`
next to the numeric default of `days` puts a number under `toUpperCase`. No
command line destructures to these values. -/
theorem normalizeValues_throws :
    normalizeValues asciiLib (.str "city") (.num 1) (.str "5") =
      .error (.typeError "scale.toUpperCase is not a function") := by
  rfl

/-! ## The claims on the argument handling -/

/-- C1: for every command line, the normalised day count, which is line 25
applied to the value left in `days` by the swap, is an integer between 1 and 5. -/
theorem days_in_range {ν : Type} (lib : Lib ν) (argv : List String) :
    ∃ q, normalize lib argv = .ok q ∧
      q.days = clampDays (swap (destructure argv).2.1 (destructure argv).2.2).1 ∧
      1 ≤ q.days ∧ q.days ≤ 5 := by
  obtain ⟨s, _, hq⟩ := normalize_ok lib argv
  exact ⟨_, hq, rfl, clampDays_bounds _⟩

/-- C2: for a days token that is an optionally signed run of decimal digits and
a scale token that is not numeric, the command line with the two tokens in
canonical order and the one with them exchanged give the same query, with the
day count read from the days token and the scale from the scale token. -/
theorem swapped_order_same_query {ν : Type} (lib : Lib ν) (a0 a1 city d s : String)
    (hd : isSignedInteger d.toList = true) (hs : isNaN (.str s) = true) :
    normalize lib [a0, a1, city, d, s] = normalize lib [a0, a1, city, s, d] ∧
      normalize lib [a0, a1, city, d, s] =
        .ok { city := .str city, days := clampDays (.str d),
              useF := decide (lib.toUpperCase s = "F") } := by
  have hnum := isNaN_of_isSignedInteger d hd
  rw [normalize_cons, normalize_cons]
  simp [hnum, hs]

/-- Witness of C2: `city 3 F` and `city F 3` both give three days in Fahrenheit. -/
theorem swapped_order_same_query_witness :
    isSignedInteger "3".toList = true ∧ isNaN (.str "F") = true ∧
      normalize asciiLib ["node", "index.js", "city", "3", "F"] =
        .ok { city := .str "city", days := 3, useF := true } ∧
      normalize asciiLib ["node", "index.js", "city", "F", "3"] =
        .ok { city := .str "city", days := 3, useF := true } := by
  have h := swapped_order_same_query asciiLib "node" "index.js" "city" "3" "F"
    (by decide) (by decide)
  refine ⟨by decide, by decide, ?_, ?_⟩
  · rw [h.2]; rfl
  · rw [← h.1, h.2]; rfl

/-- C8, as the code has it: when the token after the days token is absent or
not numeric, so that line 19 leaves the days token in place, the day count is
the parsed integer when it lies in 1 to 5, 5 above, 1 below, and 1 when the
token does not parse; without a days token it is 1. -/
theorem days_token_clamped {ν : Type} (lib : Lib ν) (a0 a1 city tok : String)
    (rest : List String) (hcanon : ∀ t2, rest.head? = some t2 → isNaN (.str t2) = true) :
    (∃ q, normalize lib (a0 :: a1 :: city :: tok :: rest) = .ok q ∧
      (∀ n, parseInt (.str tok) 10 = some n →
        (1 ≤ n → n ≤ 5 → q.days = n) ∧ (5 < n → q.days = 5) ∧ (n < 1 → q.days = 1)) ∧
      (parseInt (.str tok) 10 = none → q.days = 1)) ∧
    (∀ argv : List String, argv.length ≤ 3 → ∃ q, normalize lib argv = .ok q ∧ q.days = 1) := by
  constructor
  · have hq : ∃ u, normalize lib (a0 :: a1 :: city :: tok :: rest) =
        .ok { city := .str city, days := clampDays (.str tok), useF := u } := by
      rw [normalize_cons]
      cases hr : rest.head? with
      | none => exact ⟨_, rfl⟩
      | some t2 =>
        simp only [hcanon t2 hr, if_true]
        exact ⟨_, rfl⟩
    obtain ⟨u, hq⟩ := hq
    refine ⟨_, hq, ?_, ?_⟩
    · intro n hn
      simp only [clampDays_eq, hn]
      refine ⟨?_, ?_, ?_⟩ <;> intros <;> split_ifs <;> omega
    · intro hn
      simp only [clampDays_eq, hn]
  · intro argv h
    exact ⟨_, normalize_short lib argv h, rfl⟩

/-- Witness of C8: `city 9 F` asks for five days. -/
theorem days_token_clamped_witness :
    parseInt (.str "9") 10 = some 9 ∧
      ∃ q, normalize asciiLib ["node", "index.js", "city", "9", "F"] = .ok q ∧ q.days = 5 := by
  obtain ⟨⟨q, hq, hsome, _⟩, _⟩ :=
    days_token_clamped asciiLib "node" "index.js" "city" "9" ["F"]
      (by intro t2 h; simp at h; subst h; decide)
  have h9 : parseInt (.str "9") 10 = some 9 := by decide
  exact ⟨h9, q, hq, (hsome 9 h9).2.1 (by decide)⟩

/-- C8 fails as stated: on `city 3 5` the days token in canonical position
parses to 3, within 1 to 5, and the day count is 5, read from the numeric token
that follows; on `city 3` followed by an empty token it is 1. -/
theorem days_token_followed_by_numeric_counterexample :
    parseInt (.str "3") 10 = some 3 ∧
      normalize asciiLib ["node", "index.js", "city", "3", "5"] =
        .ok { city := .str "city", days := 5, useF := false } ∧
      normalize asciiLib ["node", "index.js", "city", "3", ""] =
        .ok { city := .str "city", days := 1, useF := false } :=
  ⟨by decide, by rfl, by rfl⟩

/-- C9, as the code has it: the numeric test is made on the second optional
token. When that token is present and numeric the day count is read from it and
the scale from the first token; otherwise the day count is read from the first
token and the scale from the second, `"C"` standing in for an absent one. -/
theorem disambiguation_by_second_token {ν : Type} (lib : Lib ν) (a0 a1 city t1 : String)
    (rest : List String) :
    normalize lib (a0 :: a1 :: city :: t1 :: rest) =
      .ok (match rest.head? with
        | some t2 =>
          if isNaN (.str t2) then
            { city := .str city, days := clampDays (.str t1),
              useF := decide (lib.toUpperCase t2 = "F") }
          else
            { city := .str city, days := clampDays (.str t2),
              useF := decide (lib.toUpperCase t1 = "F") }
        | none =>
          { city := .str city, days := clampDays (.str t1),
            useF := decide (lib.toUpperCase "C" = "F") }) :=
  normalize_cons lib a0 a1 city t1 rest

/-- C9 fails as stated: on `city F` the first optional token is not numeric,
upper-casing it gives `"F"`, and yet the query is in Celsius. -/
theorem first_token_scale_counterexample :
    isNaN (.str "F") = true ∧ asciiLib.toUpperCase "F" = "F" ∧
      normalize asciiLib ["node", "index.js", "city", "F"] =
        .ok { city := .str "city", days := 1, useF := false } :=
  ⟨by decide, by decide, by rfl⟩

/-- C10: on every command line the argument handling completes with a query,
and the value upper-cased on line 26 is a string. -/
theorem normalize_never_throws {ν : Type} (lib : Lib ν) (argv : List String) :
    (∃ s, (swap (destructure argv).2.1 (destructure argv).2.2).2 = .str s) ∧
      ∃ q, normalize lib argv = .ok q := by
  obtain ⟨s, hs, hq⟩ := normalize_ok lib argv
  exact ⟨⟨s, hs⟩, _, hq⟩

/-! ## The request URL -/

/-- An occurrence of a pattern in a concatenation lies in the left part, in the
right part, or across the seam. -/
theorem infix_append_split {α : Type} {P A B : List α} (h : P <:+: A ++ B) :
    P <:+: A ∨ P <:+: B ∨
      ∃ k, 0 < k ∧ k < P.length ∧ P.take k <:+ A ∧ P.drop k <+: B := by
  obtain ⟨s, t, hst⟩ := h
  rcases List.append_eq_append_iff.1 hst with ⟨a1, hA, _⟩ | ⟨c1, hsp, hB⟩
  · exact Or.inl ⟨s, a1, hA.symm⟩
  · rcases List.append_eq_append_iff.1 hsp with ⟨a2, hA, hP⟩ | ⟨c2, hs, hc⟩
    · by_cases ha : a2 = []
      · subst ha
        simp only [List.nil_append] at hP
        subst hP
        exact Or.inr (Or.inl ⟨[], t, by simpa using hB.symm⟩)
      · by_cases hc : c1 = []
        · subst hc
          simp only [List.append_nil] at hP
          subst hP
          exact Or.inl ⟨s, [], by simpa using hA.symm⟩
        · refine Or.inr (Or.inr ⟨a2.length, List.length_pos.2 ha, ?_, ?_, ?_⟩)
          · rw [hP, List.length_append]
            have := List.length_pos.2 hc
            omega
          · rw [hP, List.take_left']
            · exact ⟨s, hA.symm⟩
            · rfl
          · rw [hP, List.drop_left']
            · exact ⟨t, hB.symm⟩
            · rfl
    · subst hc
      exact Or.inr (Or.inl ⟨c2, t, by simpa using hB.symm⟩)

/-- A non-empty suffix ends with the last element of the list. -/
theorem getLast?_of_suffix_concat {α : Type} {p L : List α} {c : α} (h : p <:+ L ++ [c])
    (hp : p ≠ []) : p.getLast? = some c := by
  obtain ⟨t, ht⟩ := h
  have h1 := congrArg List.getLast? ht
  rw [List.getLast?_append_of_ne_nil _ hp] at h1
  simpa using h1

/-- The text `&days=` occurs in the URL for today's weather only inside the key
or inside the city. -/
theorem days_param_infix_iff (key city : List Char) :
    ['&', 'd', 'a', 'y', 's', '='] <:+: currentPrefix ++ key ++ ['&', 'q', '='] ++ city ↔
      ['&', 'd', 'a', 'y', 's', '='] <:+: key ∨ ['&', 'd', 'a', 'y', 's', '='] <:+: city := by
  constructor
  · intro h
    rcases infix_append_split h with h1 | h2 | ⟨k, hk0, hk, hs, _⟩
    · rcases infix_append_split h1 with h3 | h4 | ⟨k, hk0, hk, _, hp⟩
      · rcases infix_append_split h3 with h5 | h6 | ⟨k, hk0, hk, hs, _⟩
        · exact absurd h5 (by decide)
        · exact Or.inl h6
        · simp only [List.length_cons, List.length_nil] at hk
          interval_cases k <;> exact absurd hs (by decide)
      · have := h4.length_le
        simp at this
      · simp only [List.length_cons, List.length_nil] at hk
        interval_cases k <;> exact absurd hp (by decide)
    · exact Or.inr h2
    · have hlast : ∀ p : List Char, p <:+ currentPrefix ++ key ++ ['&', 'q', '='] → p ≠ [] →
          p.getLast? = some '=' := by
        intro p hp hne
        apply getLast?_of_suffix_concat (L := currentPrefix ++ key ++ ['&', 'q']) _ hne
        simpa using hp
      simp only [List.length_cons, List.length_nil] at hk
      interval_cases k <;> exact absurd (hlast _ hs (by simp)) (by decide)
  · rintro (h | h)
    · exact h.trans ⟨currentPrefix, ['&', 'q', '='] ++ city, by simp⟩
    · exact h.trans ⟨currentPrefix ++ key ++ ['&', 'q', '='], [], by simp⟩

theorem url_current (API_KEY city : JSVal) :
    url API_KEY city 1 =
      "http://api.weatherapi.com/v1/current.json?key=" ++ API_KEY.toStr ++ "&q=" ++
        city.toStr := by
  simp [url]

theorem url_forecast (API_KEY city : JSVal) (N : Int) (h : N ≠ 1) :
    url API_KEY city N =
      "http://api.weatherapi.com/v1/forecast.json?key=" ++ API_KEY.toStr ++ "&q=" ++
        city.toStr ++ "&days=" ++ numberToString N := by
  simp [url, h, String.append_assoc]

/-- C5, as the code has it: for one day the URL is the address of the `current`
endpoint with the key and the city and nothing after the city, so that `&days=`
occurs in it exactly when it occurs in the key or in the city; for `N` above one
the URL is the address of the `forecast` endpoint with the key, the city and,
last, `&days=` and the decimal digits of `N`. -/
theorem url_day_parameter (API_KEY city : JSVal) (N : Int) (hN : 1 < N) :
    url API_KEY city 1 =
        "http://api.weatherapi.com/v1/current.json?key=" ++ API_KEY.toStr ++ "&q=" ++
          city.toStr ∧
      ("&days=".toList <:+: (url API_KEY city 1).toList ↔
        "&days=".toList <:+: API_KEY.toStr.toList ∨ "&days=".toList <:+: city.toStr.toList) ∧
      url API_KEY city N =
        "http://api.weatherapi.com/v1/forecast.json?key=" ++ API_KEY.toStr ++ "&q=" ++
          city.toStr ++ "&days=" ++ numberToString N ∧
      "http://api.weatherapi.com/v1/forecast.json?".toList <+: (url API_KEY city N).toList ∧
      ("&days=" ++ numberToString N).toList <:+ (url API_KEY city N).toList ∧
      (N ≤ 5 → numberToString N ∈ ["2", "3", "4", "5"]) := by
  refine ⟨url_current _ _, ?_, url_forecast _ _ _ (by omega), ?_, ?_, ?_⟩
  · rw [url_current]
    have h := days_param_infix_iff API_KEY.toStr.toList city.toStr.toList
    simpa [String.toList, currentPrefix] using h
  · rw [url_forecast _ _ _ (by omega)]
    simp only [String.toList, String.data_append, List.append_assoc]
    exact ⟨_, rfl⟩
  · rw [url_forecast _ _ _ (by omega)]
    simp only [String.toList, String.data_append]
    exact ⟨_, (List.append_assoc _ _ _).symm⟩
  · intro h5
    have h : N = 2 ∨ N = 3 ∨ N = 4 ∨ N = 5 := by omega
    rcases h with rfl | rfl | rfl | rfl <;> decide

/-- Witness of C5: three days in Tokyo. -/
theorem url_day_parameter_witness :
    (1 : Int) < 3 ∧
      url (.str "k3y") (.str "Tokyo") 3 =
        "http://api.weatherapi.com/v1/forecast.json?key=k3y&q=Tokyo&days=3" ∧
      url (.str "k3y") (.str "Tokyo") 1 =
        "http://api.weatherapi.com/v1/current.json?key=k3y&q=Tokyo" := by
  have h := url_day_parameter (.str "k3y") (.str "Tokyo") 3 (by decide)
  refine ⟨by decide, ?_, ?_⟩
  · rw [h.2.2.1]; decide
  · rw [h.1]; decide

/-- C5 fails as stated: with one day and a city holding `&days=`, the URL is
for the `current` endpoint and `&days=` occurs in it. -/
theorem url_city_days_counterexample :
    url (.str "k3y") (.str "Paris&days=3") 1 =
        "http://api.weatherapi.com/v1/current.json?key=k3y&q=Paris&days=3" ∧
      "&days=".toList <:+: (url (.str "k3y") (.str "Paris&days=3") 1).toList := by
  have h : url (.str "k3y") (.str "Paris&days=3") 1 =
      "http://api.weatherapi.com/v1/current.json?key=k3y&q=Paris&days=3" := by decide
  refine ⟨h, ?_⟩
  rw [h]
  exact ⟨"http://api.weatherapi.com/v1/current.json?key=k3y&q=Paris".toList, "3".toList, rfl⟩

/-! ## The error reporter -/

/-- The line with the message and the status text contains a colon, the first
credential hint does not. -/
theorem message_ne_credentialHint (m t : String) :
    m ++ ": " ++ t ≠ "Check your API_KEY in the .env file" := by
  intro h
  have hmem : ':' ∈ (m ++ ": " ++ t).toList := by
    simp [String.toList]
  rw [h] at hmem
  revert hmem
  decide

/-- C6: for an error with a response, `showError` prints the message and the
status text first, then the hint on the length of city names exactly for status
400, the two lines of the credential hint exactly for status 401, and nothing
more for another status; for an error without a response it prints the generic
line only. Nothing else is printed: no line of `showError` is a line of a
forecast or of the report for today. -/
theorem showError_report {ν : Type} (lib : Lib ν) (useF : Bool)
    (name country temp conditions : String) (forecast : Forecast ν) (error : ErrorContext) :
    showError error =
        (match error.response with
          | some r =>
            [red [.str (error.message ++ ": " ++ r.statusText)]] ::
              (if r.status = 400 then
                [[yellow [.str "City names must be at least 3 characters long."]]]
              else if r.status = 401 then
                [[red [.str "Check your API_KEY in the .env file"]],
                 [.str "or apply for at API_KEY at https://weatherapi.com and add it to your .env file.\n"]]
              else [])
          | none => [[.str "Error:", .object error]]) ∧
      ([yellow [.str "City names must be at least 3 characters long."]] ∈ showError error ↔
        ∃ r, error.response = some r ∧ r.status = 400) ∧
      ([red [.str "Check your API_KEY in the .env file"]] ∈ showError error ↔
        ∃ r, error.response = some r ∧ r.status = 401) ∧
      ([.str "or apply for at API_KEY at https://weatherapi.com and add it to your .env file.\n"]
          ∈ showError error ↔
        ∃ r, error.response = some r ∧ r.status = 401) ∧
      (∀ l ∈ showError error,
        l ∉ showForecast lib useF name country temp forecast ∧
          l ∉ showTodaysWeather name country temp conditions) := by
  refine ⟨rfl, ?_, ?_, ?_, ?_⟩
  · cases hr : error.response with
    | none => simp [showError, hr, yellow]
    | some r =>
      by_cases h400 : r.status = 400
      · simp [showError, hr, h400]
      · by_cases h401 : r.status = 401
        · simp [showError, hr, h401, red, yellow]
        · simp [showError, hr, h400, h401, red, yellow]
  · cases hr : error.response with
    | none => simp [showError, hr, red]
    | some r =>
      have hm := message_ne_credentialHint error.message r.statusText
      by_cases h400 : r.status = 400
      · simp [showError, hr, h400, red, yellow, hm.symm]
      · by_cases h401 : r.status = 401
        · simp [showError, hr, h401]
        · simp [showError, hr, h400, h401, red, hm.symm]
  · cases hr : error.response with
    | none => simp [showError, hr]
    | some r =>
      by_cases h400 : r.status = 400
      · simp [showError, hr, h400, red, yellow]
      · by_cases h401 : r.status = 401
        · simp [showError, hr, h401]
        · simp [showError, hr, h400, h401, red]
  · have hmem : ∀ l ∈ showError error,
        (∃ x, l = [red [.str x]]) ∨ (∃ x, l = [yellow [.str x]]) ∨ (∃ x, l = [.str x]) ∨
          l = [.str "Error:", .object error] := by
      intro l hl
      cases hr : error.response with
      | none =>
        simp only [showError, hr, List.mem_singleton] at hl
        exact Or.inr (Or.inr (Or.inr hl))
      | some r =>
        simp only [showError, hr, List.mem_cons] at hl
        rcases hl with rfl | hl
        · exact Or.inl ⟨_, rfl⟩
        · split_ifs at hl
          · simp only [List.mem_singleton] at hl
            exact Or.inr (Or.inl ⟨_, hl⟩)
          · simp only [List.mem_cons, List.mem_singleton, List.not_mem_nil, or_false] at hl
            rcases hl with rfl | rfl
            · exact Or.inl ⟨_, rfl⟩
            · exact Or.inr (Or.inr (Or.inl ⟨_, rfl⟩))
          · simp at hl
    have hday : ∀ l, ((∃ x, l = [red [.str x]]) ∨ (∃ x, l = [yellow [.str x]]) ∨
        (∃ x, l = [.str x]) ∨ l = [.str "Error:", .object error]) →
        ∀ fd, l ∉ showForecastForADay lib useF fd := by
      rintro l (⟨x, rfl⟩ | ⟨x, rfl⟩ | ⟨x, rfl⟩ | rfl) fd <;>
        simp [showForecastForADay, red, yellow]
    intro l hl
    have hshape := hmem l hl
    constructor
    · simp only [showForecast, List.mem_append, List.mem_flatMap, not_or, not_exists, not_and]
      refine ⟨?_, fun fd _ => hday l hshape fd⟩
      rcases hshape with ⟨x, rfl⟩ | ⟨x, rfl⟩ | ⟨x, rfl⟩ | rfl <;>
        simp [red, yellow, blue, green]
    · rcases hshape with ⟨x, rfl⟩ | ⟨x, rfl⟩ | ⟨x, rfl⟩ | rfl <;>
        simp [showTodaysWeather, red, yellow, green, rainbow]

/-! ## The presenter -/

/-- The per-day block does not hold a mismatch line. -/
theorem mismatchLine_not_mem_day {ν : Type} (lib : Lib ν) (useF : Bool) (fd : ForecastDay ν)
    (c n : String) :
    [red [.str "Error: "],
      .str ("No weather data for \"" ++ c ++ "\" found. Perhaps you meant " ++ n ++
        "? Please check your spelling.")] ∉ showForecastForADay lib useF fd := by
  simp [showForecastForADay, red]

/-- C3: when the resolved name and the requested city differ after lower-casing,
`displayWeather` prints one line, the red `Error: ` followed by the message that
names the requested city and suggests the resolved name, prints no header, and
exits with status 9; when they are equal it prints no such message for any pair
of names, returns without exiting, and its output is the header line framing
`WEATHER PROGRAM` followed by the report, the forecast when there is one and the
two lines for today otherwise. -/
theorem displayWeather_validation {ν : Type} (lib : Lib ν) (city : String) (useF : Bool)
    (response : Response ν) :
    (lib.toLowerCase city ≠ lib.toLowerCase response.data.location.name →
      (displayWeather lib (.str city) useF response).out =
          [[red [.str "Error: "],
            .str ("No weather data for \"" ++ city ++ "\" found. Perhaps you meant " ++
              response.data.location.name ++ "? Please check your spelling.")]] ∧
        (displayWeather lib (.str city) useF response).outcome = .exited 9 ∧
        [whiteInverse [.str "\n ********************* \n * "],
          .str "WEATHER PROGRAM",
          whiteInverse [.str " * \n ********************* "]] ∉
            (displayWeather lib (.str city) useF response).out) ∧
    (lib.toLowerCase city = lib.toLowerCase response.data.location.name →
      (∀ c n : String,
        [red [.str "Error: "],
          .str ("No weather data for \"" ++ c ++ "\" found. Perhaps you meant " ++ n ++
            "? Please check your spelling.")] ∉
          (displayWeather lib (.str city) useF response).out) ∧
        (displayWeather lib (.str city) useF response).outcome = .returned ∧
        (displayWeather lib (.str city) useF response).out =
          [whiteInverse [.str "\n ********************* \n * "],
            .str "WEATHER PROGRAM",
            whiteInverse [.str " * \n ********************* "]] ::
            (match response.data.forecast with
              | some forecast =>
                showForecast lib useF response.data.location.name
                  response.data.location.country
                  (if useF then lib.numToStr response.data.current.temp_f ++ "°F"
                   else lib.numToStr response.data.current.temp_c ++ "°C") forecast
              | none =>
                [[.str "\nIt is now",
                  green [.str (if useF then lib.numToStr response.data.current.temp_f ++ "°F"
                               else lib.numToStr response.data.current.temp_c ++ "°C")],
                  .str "in",
                  yellow [.str (response.data.location.name ++ ", " ++
                    response.data.location.country)]],
                 [.str "The current weather conditions are :",
                  rainbow [.str ("\"" ++ response.data.current.condition.text ++ "\"\n")]]])) := by
  constructor
  · intro h
    simp [displayWeather, callToLowerCase, h, JSVal.toStr, mismatchLine, red, whiteInverse]
  · intro h
    refine ⟨?_, ?_, ?_⟩
    · intro c n
      simp only [displayWeather, callToLowerCase, h, ne_eq, not_true_eq_false, if_false]
      cases response.data.forecast with
      | none => simp [showHeader, showTodaysWeather, red, whiteInverse]
      | some f =>
        simp only [showForecast, List.mem_append, List.mem_flatMap, not_or, not_exists, not_and]
        refine ⟨by simp [showHeader, red, whiteInverse], by simp [red, blue], ?_⟩
        intro fd _
        exact mismatchLine_not_mem_day lib useF fd c n
    · simp [displayWeather, callToLowerCase, h]
    · simp only [displayWeather, callToLowerCase, h, ne_eq, not_true_eq_false, if_false]
      cases response.data.forecast with
      | none => rfl
      | some f => rfl

/-- Witness of C3: `Londin` resolved to `London` gives the one mismatch line and
exit status 9; `paris` resolved to `Paris` gives the header and the report for
today in Celsius. -/
theorem displayWeather_validation_witness :
    asciiLib.toLowerCase "Londin" ≠ asciiLib.toLowerCase "London" ∧
      (displayWeather asciiLib (.str "Londin") false
        { data := { location := { name := "London", country := "UK" },
                    current := { temp_c := 11, temp_f := 52, condition := { text := "Mist" } },
                    forecast := none } }).out =
        [[red [.str "Error: "],
          .str "No weather data for \"Londin\" found. Perhaps you meant London? Please check your spelling."]] ∧
      (displayWeather asciiLib (.str "Londin") false
        { data := { location := { name := "London", country := "UK" },
                    current := { temp_c := 11, temp_f := 52, condition := { text := "Mist" } },
                    forecast := none } }).outcome = .exited 9 ∧
      asciiLib.toLowerCase "paris" = asciiLib.toLowerCase "Paris" ∧
      (displayWeather asciiLib (.str "paris") false
        { data := { location := { name := "Paris", country := "France" },
                    current := { temp_c := 18, temp_f := 64, condition := { text := "Sunny" } },
                    forecast := none } }).out =
        [[whiteInverse [.str "\n ********************* \n * "],
          .str "WEATHER PROGRAM",
          whiteInverse [.str " * \n ********************* "]],
         [.str "\nIt is now", green [.str "18°C"], .str "in", yellow [.str "Paris, France"]],
         [.str "The current weather conditions are :", rainbow [.str "\"Sunny\"\n"]]] ∧
      (displayWeather asciiLib (.str "paris") false
        { data := { location := { name := "Paris", country := "France" },
                    current := { temp_c := 18, temp_f := 64, condition := { text := "Sunny" } },
                    forecast := none } }).outcome = .returned := by
  have h1 := (displayWeather_validation asciiLib "Londin" false
    { data := { location := { name := "London", country := "UK" },
                current := { temp_c := 11, temp_f := 52, condition := { text := "Mist" } },
                forecast := none } }).1 (by decide)
  have h2 := (displayWeather_validation asciiLib "paris" false
    { data := { location := { name := "Paris", country := "France" },
                current := { temp_c := 18, temp_f := 64, condition := { text := "Sunny" } },
                forecast := none } }).2 (by decide)
  exact ⟨by decide, h1.1.trans (by rfl), h1.2.1, by decide, h2.2.2.trans (by rfl), h2.2.1⟩

/-- A string ending in `°C` does not end in `°F`, and conversely. -/
theorem suffix_scale_ne (a : String) (x y : String) (hlen : x.toList.length = y.toList.length)
    (hne : x ≠ y) : ¬ y.toList <:+ (a ++ x).toList := by
  rintro ⟨t, ht⟩
  simp only [String.toList, String.data_append] at ht hlen
  have := (List.append_inj' ht hlen.symm).2
  exact hne (String.ext this).symm

/-- C4: the current temperature and the average temperature of a day are the
Fahrenheit field followed by `°F` when `useF` holds and the Celsius field
followed by `°C` otherwise, so each ends in `°F` exactly when `useF` holds and
in `°C` exactly when it does not; the average is what the second line of a
per-day block shows. -/
theorem temperature_scale {ν : Type} (lib : Lib ν) (useF : Bool) (current : Current ν)
    (fd : ForecastDay ν) :
    currentTemp lib useF current =
        (if useF then lib.numToStr current.temp_f ++ "°F"
         else lib.numToStr current.temp_c ++ "°C") ∧
      averageTemp lib useF fd.day =
        (if useF then lib.numToStr fd.day.avgtemp_f ++ "°F"
         else lib.numToStr fd.day.avgtemp_c ++ "°C") ∧
      ("°F".toList <:+ (currentTemp lib useF current).toList ↔ useF = true) ∧
      ("°C".toList <:+ (currentTemp lib useF current).toList ↔ useF = false) ∧
      ("°F".toList <:+ (averageTemp lib useF fd.day).toList ↔ useF = true) ∧
      ("°C".toList <:+ (averageTemp lib useF fd.day).toList ↔ useF = false) ∧
      (showForecastForADay lib useF fd).get? 1 =
        some [.str "Average Temperature:", yellow [.str (averageTemp lib useF fd.day)]] := by
  have hFC : ∀ a : String, ¬ "°C".toList <:+ (a ++ "°F").toList :=
    fun a => suffix_scale_ne a "°F" "°C" (by decide) (by decide)
  have hCF : ∀ a : String, ¬ "°F".toList <:+ (a ++ "°C").toList :=
    fun a => suffix_scale_ne a "°C" "°F" (by decide) (by decide)
  have hyes : ∀ a x : String, x.toList <:+ (a ++ x).toList := by
    intro a x
    simp only [String.toList, String.data_append]
    exact ⟨_, rfl⟩
  refine ⟨rfl, rfl, ?_, ?_, ?_, ?_, rfl⟩ <;> cases useF <;>
    simp only [currentTemp, averageTemp, Bool.false_eq_true, Bool.true_eq_false, if_true,
      if_false, iff_true, iff_false] <;>
    first
      | exact hyes _ _
      | exact hFC _
      | exact hCF _

/-- Blocks of a fixed length laid end to end: the total length. -/
theorem length_flatMap_block {α β : Type} (f : α → List β) (k : Nat)
    (hf : ∀ a, (f a).length = k) (l : List α) : (l.flatMap f).length = k * l.length := by
  induction l with
  | nil => simp
  | cons x xs ih =>
    simp only [List.flatMap_cons, List.length_append, List.length_cons, hf, ih]
    ring

/-- Blocks of a fixed length laid end to end: the block at position `i` is the
one of the element at position `i`. -/
theorem block_flatMap {α β : Type} (f : α → List β) (k : Nat) (hf : ∀ a, (f a).length = k)
    (l : List α) (i : Nat) (a : α) (h : l.get? i = some a) :
    ((l.flatMap f).drop (k * i)).take k = f a := by
  induction l generalizing i with
  | nil => simp at h
  | cons x xs ih =>
    cases i with
    | zero =>
      simp only [List.get?_cons_zero, Option.some.injEq] at h
      subst h
      simp only [List.flatMap_cons, Nat.mul_zero, List.drop_zero]
      exact List.take_left' (hf x)
    | succ j =>
      simp only [List.get?_cons_succ] at h
      have hk : k * (j + 1) = (f x).length + k * j := by rw [hf x]; ring
      rw [List.flatMap_cons, hk, List.drop_append]
      exact ih j h

/-- The word of line 113 for two to five records. -/
theorem countWords_word (n : Nat) (h2 : 2 ≤ n) (h5 : n ≤ 5) :
    (index countWords n).toStr =
      (if n = 2 then "TWO" else if n = 3 then "THREE" else if n = 4 then "FOUR" else "FIVE") := by
  interval_cases n <;> rfl

/-- C7: for a forecast of two to five records, `showForecast` prints the line
with the current temperature, then the banner with the upper-cased city and
country and the number of records as a word before `DAYS`, then four lines for
each record in the order of the records: its date, its average temperature in
the chosen scale, its condition text, and its sunrise and sunset. -/
theorem showForecast_layout {ν : Type} (lib : Lib ν) (useF : Bool) (name country temp : String)
    (forecast : Forecast ν) (h2 : 2 ≤ forecast.forecastday.length)
    (h5 : forecast.forecastday.length ≤ 5) :
    showForecast lib useF name country temp forecast =
        [.str "\nIn", green [.str name], .str "the current temperature is:",
          yellow [.str temp]] ::
        [blue [.str "\n* THE WEATHER FORECAST FOR",
          green [.str (lib.toUpperCase name ++ ", " ++ lib.toUpperCase country)],
          .str ("FOR THE NEXT " ++
            (if forecast.forecastday.length = 2 then "TWO"
             else if forecast.forecastday.length = 3 then "THREE"
             else if forecast.forecastday.length = 4 then "FOUR" else "FIVE") ++
            " DAYS *\n")]] ::
        forecast.forecastday.flatMap (showForecastForADay lib useF) ∧
      (showForecast lib useF name country temp forecast).length =
        2 + 4 * forecast.forecastday.length ∧
      ∀ i fd, forecast.forecastday.get? i = some fd →
        ((showForecast lib useF name country temp forecast).drop (2 + 4 * i)).take 4 =
          [[.str "Day:", red [.str fd.date]],
           [.str "Average Temperature:",
            yellow [.str (if useF then lib.numToStr fd.day.avgtemp_f ++ "°F"
                          else lib.numToStr fd.day.avgtemp_c ++ "°C")]],
           [.str "Weather Conditions:", yellow [.str fd.day.condition.text]],
           [.str "Sunrise:", yellow [.str fd.astro.sunrise], .str "\n",
            .str "Sunset:", yellow [.str fd.astro.sunset], .str "\n"]] := by
  have hlen : ∀ fd : ForecastDay ν, (showForecastForADay lib useF fd).length = 4 :=
    fun _ => rfl
  have hout : showForecast lib useF name country temp forecast =
      [.str "\nIn", green [.str name], .str "the current temperature is:",
        yellow [.str temp]] ::
      [blue [.str "\n* THE WEATHER FORECAST FOR",
        green [.str (lib.toUpperCase name ++ ", " ++ lib.toUpperCase country)],
        .str ("FOR THE NEXT " ++
          (if forecast.forecastday.length = 2 then "TWO"
           else if forecast.forecastday.length = 3 then "THREE"
           else if forecast.forecastday.length = 4 then "FOUR" else "FIVE") ++
          " DAYS *\n")]] ::
      forecast.forecastday.flatMap (showForecastForADay lib useF) := by
    simp only [showForecast, countWords_word _ h2 h5]
    rfl
  refine ⟨hout, ?_, ?_⟩
  · rw [hout]
    simp only [List.length_cons, length_flatMap_block _ 4 hlen]
    omega
  · intro i fd hfd
    rw [hout, Nat.add_comm 2 (4 * i)]
    simp only [List.drop_succ_cons]
    rw [block_flatMap _ 4 hlen _ i fd hfd]
    rfl

/-- Witness of C7: three days for Tokyo, in Fahrenheit. The banner says
`THREE DAYS` and the second block is the one of the second record. -/
theorem showForecast_layout_witness :
    (showForecast asciiLib true "Tokyo" "Japan" "61°F"
      { forecastday :=
        [{ date := "2024-05-01",
           day := { avgtemp_c := 16, avgtemp_f := 61, condition := { text := "Sunny" } },
           astro := { sunrise := "04:50 AM", sunset := "06:27 PM" } },
         { date := "2024-05-02",
           day := { avgtemp_c := 17, avgtemp_f := 63, condition := { text := "Cloudy" } },
           astro := { sunrise := "04:49 AM", sunset := "06:28 PM" } },
         { date := "2024-05-03",
           day := { avgtemp_c := 15, avgtemp_f := 59, condition := { text := "Rain" } },
           astro := { sunrise := "04:48 AM", sunset := "06:29 PM" } }] }) =
      [[.str "\nIn", green [.str "Tokyo"], .str "the current temperature is:",
        yellow [.str "61°F"]],
       [blue [.str "\n* THE WEATHER FORECAST FOR", green [.str "TOKYO, JAPAN"],
        .str "FOR THE NEXT THREE DAYS *\n"]],
       [.str "Day:", red [.str "2024-05-01"]],
       [.str "Average Temperature:", yellow [.str "61°F"]],
       [.str "Weather Conditions:", yellow [.str "Sunny"]],
       [.str "Sunrise:", yellow [.str "04:50 AM"], .str "\n",
        .str "Sunset:", yellow [.str "06:27 PM"], .str "\n"],
       [.str "Day:", red [.str "2024-05-02"]],
       [.str "Average Temperature:", yellow [.str "63°F"]],
       [.str "Weather Conditions:", yellow [.str "Cloudy"]],
       [.str "Sunrise:", yellow [.str "04:49 AM"], .str "\n",
        .str "Sunset:", yellow [.str "06:28 PM"], .str "\n"],
       [.str "Day:", red [.str "2024-05-03"]],
       [.str "Average Temperature:", yellow [.str "59°F"]],
       [.str "Weather Conditions:", yellow [.str "Rain"]],
       [.str "Sunrise:", yellow [.str "04:48 AM"], .str "\n",
        .str "Sunset:", yellow [.str "06:29 PM"], .str "\n"]] :=
  (showForecast_layout asciiLib true "Tokyo" "Japan" "61°F" _ (by decide) (by decide)).1.trans
    (by rfl)

end WeatherCli
